import Mathlib

/-!
Verification development for the financial-ai-swarm risk decision pipeline.

The definitions below are a shallow embedding of the Python source:
  - src/src/agents/fraud_detection/agent.py  (FraudDetectionAgent)
  - src/src/agents/compliance/agent.py       (ComplianceAgent)
  - src/src/api/main.py                      (process_transaction)
  - src/src/orchestration/supervisor.py      (FinancialOrchestrator)
  - src/standalone_api.py                    (process_transaction)

Machine floats are modelled by rationals, except where the source computes an
inherently irrational quantity (log1p, the standard deviation used for the
fraud confidence), which is modelled over the reals.  Python exceptions are
modelled by Option/Except values.  External collaborators (the sentence
embedding model, the per-process salted builtin hash of CPython, the fitted
PyOD score distributions) are modelled as explicit parameters, so that every
code path of the repository itself is a total Lean function of those
parameters.
-/

/-- A transaction record as the dict shaped payload consumed by both agents
(pydantic model Transaction in src/src/api/main.py plus the optional keys
read with dict.get by the agents).  The timestamp is represented by the hour
and weekday that datetime.fromisoformat parsing yields, since only those two
projections are read by the source. -/
structure Txn where
  transaction_id : String
  amount : ℚ
  merchant : String
  category : String
  user_id : String
  hour : ℕ
  weekday : ℕ
  location : String
  merchant_description : Option String
  daily_transaction_count : Option ℚ
  daily_transaction_volume : Option ℚ
  manager_approval : Bool
  competitive_bids : Bool
  corporate_booking : Bool

/-- Characters of a Python string lowercased, modelling str.lower() as used by
the compliance agent for every containment check. -/
def strLower (s : String) : List Char :=
  s.data.map Char.toLower

/-- Helper for substring containment: does the candidate list start with the
needle? -/
def charsStart : List Char → List Char → Bool
  | [], _ => true
  | _ :: _, [] => false
  | a :: as, b :: bs => a == b && charsStart as bs

/-- Python substring containment (needle in hay) on character lists,
modelling the `in` operator on str used by _check_sanctions, _check_pep and
_check_policy_violations. -/
def containsSub (needle : List Char) : List Char → Bool
  | [] => needle == []
  | c :: rest => charsStart needle (c :: rest) || containsSub needle rest

/-- One SanctionsList entry (dataclass SanctionsList in
src/src/agents/compliance/agent.py). -/
structure SanctionsEntry where
  entity_name : String
  entity_type : String
  country : String
  list_type : String
  added_date : String
  aliases : List String

/-- The three mock OFAC entries loaded by _load_sanctions_lists. -/
def mockSanctions : List SanctionsEntry :=
  [ { entity_name := "Suspicious Corp International", entity_type := "ORGANIZATION",
      country := "Country X", list_type := "OFAC_SDN", added_date := "2024-01-15",
      aliases := ["SCI", "Sus Corp"] },
    { entity_name := "John Doe Sanctioned", entity_type := "INDIVIDUAL",
      country := "Country Y", list_type := "OFAC_SDN", added_date := "2023-06-20",
      aliases := ["J. Doe", "Johnny Doe"] },
    { entity_name := "Blocked Vendor LLC", entity_type := "ORGANIZATION",
      country := "Country Z", list_type := "EU_SANCTIONS", added_date := "2024-03-10",
      aliases := ["BV LLC"] } ]

/-- The inner alias loop of _check_sanctions: the first alias matching the
candidate in either containment direction produces the match string, then the
loop breaks. -/
def firstAliasMatch (entityLower : List Char) (listType : String) : List String → Option String
  | [] => none
  | a :: rest =>
    if containsSub (strLower a) entityLower || containsSub entityLower (strLower a) then
      some ("Matched " ++ listType ++ " alias: " ++ a)
    else
      firstAliasMatch entityLower listType rest

/-- One iteration of the entry loop of _check_sanctions: the main name is
checked in both containment directions first (with continue on success, so
aliases are skipped), then the aliases. -/
def entryMatch (entityLower : List Char) (e : SanctionsEntry) : Option String :=
  if containsSub (strLower e.entity_name) entityLower
      || containsSub entityLower (strLower e.entity_name) then
    some ("Matched " ++ e.list_type ++ ": " ++ e.entity_name)
  else
    firstAliasMatch entityLower e.list_type e.aliases

/-- ComplianceAgent._check_sanctions: case-insensitive bidirectional substring
matching of the entity name against every loaded entry; returns the hit flag
(len(matches) > 0) and the match evidence list. -/
def checkSanctions (entries : List SanctionsEntry) (entityName : String) :
    Bool × List String :=
  let ms := entries.filterMap (entryMatch (strLower entityName))
  (!ms.isEmpty, ms)

/-- The mock PEP vocabulary of _load_pep_list.  The source stores it in a
Python set; only membership tests and the derived hit flag are consumed
downstream, so the iteration order chosen here is immaterial. -/
def pepTermsList : List String :=
  [ "government official", "minister of finance", "senator",
    "ambassador", "military general", "central bank governor" ]

/-- ComplianceAgent._check_pep: every vocabulary term contained in the
lowercased description is a PEP indicator. -/
def checkPEP (terms : List String) (desc : String) : Bool × List String :=
  let ms :=
    (terms.filter (fun t => containsSub (strLower t) (strLower desc))).map
      (fun t => "PEP indicator: " ++ t)
  (!ms.isEmpty, ms)

/-- The ten seed policy texts of _initialize_policy_rag. -/
def policyTexts : List String :=
  [ "All transactions above $10,000 require manager approval and documented business justification.",
    "Expenses for entertainment and gifts are limited to $500 per event and must have detailed receipts.",
    "Travel expenses must be booked through approved corporate travel agency. Economy class required for flights under 6 hours.",
    "IT equipment purchases require IT department approval and must meet security standards.",
    "Vendor payments require three competitive bids for contracts over $25,000.",
    "Personal purchases or gifts using company funds are strictly prohibited.",
    "All foreign transactions must be screened for OFAC compliance before processing.",
    "Consulting services require documented statements of work and deliverables.",
    "Recurring subscriptions must be reviewed quarterly for necessity and cost optimization.",
    "Cash advances are limited to $1,000 and require repayment within 30 days with receipts." ]

/-- The body of the per-policy loop of _check_policy_violations: the four
pattern rules, in source order, each appending one violation string. -/
def violationsForPolicy (txn : Txn) (policy : String) : List String :=
  let pl := strLower policy
  let cat := strLower txn.category
  (if containsSub (strLower "above $10,000") pl = true ∧ txn.amount > 10000
      ∧ txn.manager_approval = false then
    ["Policy violation: " ++ policy] else [])
  ++ (if containsSub (strLower "above $25,000") pl = true ∧ txn.amount > 25000
      ∧ txn.competitive_bids = false then
    ["Policy violation: " ++ policy] else [])
  ++ (if containsSub (strLower "entertainment") pl = true
      ∧ containsSub (strLower "entertainment") cat = true ∧ txn.amount > 500 then
    ["Policy violation: " ++ policy] else [])
  ++ (if containsSub (strLower "travel") pl = true
      ∧ containsSub (strLower "travel") cat = true
      ∧ txn.corporate_booking = false then
    ["Policy violation: " ++ policy] else [])

/-- ComplianceAgent._check_policy_violations over the retrieved policies. -/
def checkPolicyViolations (txn : Txn) (policies : List String) : List String :=
  (policies.map (violationsForPolicy txn)).flatten

/-- The risk score formula of check_compliance: 0.8 for a sanctions hit plus
0.3 for a PEP hit plus 0.1 per violation, capped at 1. -/
def complianceRiskScore (sanctionsHit pepHit : Bool) (nViolations : ℕ) : ℚ :=
  min ((if sanctionsHit then (8 : ℚ)/10 else 0)
    + (if pepHit then (3 : ℚ)/10 else 0)
    + (nViolations : ℚ) * (1/10)) 1

/-- The status decision of check_compliance, in source branch order. -/
def complianceStatus (sanctionsHit pepHit : Bool) (nViolations : ℕ)
    (riskScore : ℚ) : String :=
  if sanctionsHit then "REJECTED"
  else if pepHit ∨ nViolations > 2 ∨ riskScore > 7/10 then "REVIEW_REQUIRED"
  else if nViolations > 0 then "REVIEW_REQUIRED"
  else "APPROVED"

/-- The recommendation generation of check_compliance, in source order. -/
def complianceRecommendations (sanctionsHit pepHit : Bool)
    (sanctionMatches pepMatches violations : List String) (status : String)
    (amount : ℚ) : List String :=
  (if sanctionsHit then
    "IMMEDIATE ESCALATION: Sanctions match detected" :: sanctionMatches else [])
  ++ (if pepHit then
    "Enhanced due diligence required for PEP" :: pepMatches else [])
  ++ (if !violations.isEmpty then ["Resolve policy violations before approval"] else [])
  ++ (if status == "APPROVED" ∧ amount > 5000 then
    ["Consider additional documentation for audit trail"] else [])

/-- The result dataclass ComplianceResult; the wall clock timestamp field is
not modelled. -/
structure ComplianceResult where
  status : String
  sanctions_hit : Bool
  pep_hit : Bool
  policy_violations : List String
  risk_score : ℚ
  reviewed_policies : List String
  recommendations : List String

/-- ComplianceAgent.check_compliance.  The list of retrieved policies is a
parameter because _retrieve_relevant_policies depends on the external sentence
embedding model; the index search itself is modelled separately by
retrievePolicies. -/
def checkCompliance (entries : List SanctionsEntry) (pepTerms : List String)
    (retrieved : List String) (txn : Txn) : ComplianceResult :=
  let sanc := checkSanctions entries txn.merchant
  let desc := txn.merchant_description.getD txn.merchant
  let pep := checkPEP pepTerms desc
  let violations := checkPolicyViolations txn retrieved
  let risk := complianceRiskScore sanc.1 pep.1 violations.length
  let status := complianceStatus sanc.1 pep.1 violations.length risk
  { status := status
    sanctions_hit := sanc.1
    pep_hit := pep.1
    policy_violations := violations
    risk_score := risk
    reviewed_policies := retrieved
    recommendations :=
      complianceRecommendations sanc.1 pep.1 sanc.2 pep.2 violations status txn.amount }

/-- The 1e-10 padding constant of the min-max normalization in detect_fraud. -/
def eps : ℚ := 1 / 10 ^ 10

/-- The per-detector min-max normalization of detect_fraud, line 211:
(score - min) / (max - min + 1e-10). -/
def normalizeScore (score mn mx : ℚ) : ℚ :=
  (score - mn) / (mx - mn + eps)

/-- The fixed ensemble weights of detect_fraud. -/
def fraudWeights : List (String × ℚ) :=
  [ ("isolation_forest", 3/10), ("lof", 1/4), ("knn", 1/5),
    ("cblof", 3/20), ("hbos", 1/10) ]

/-- The detector names in the dict insertion order of _initialize_models. -/
def modelNames : List String :=
  ["isolation_forest", "lof", "knn", "cblof", "hbos"]

/-- What one successful fitted detector yields: its decision_function score on
the scored sample and the min and max of its decision_scores_ distribution.
These come from the external PyOD model, so they are inputs of the embedding;
a run of None models the detector raising, which the source absorbs. -/
structure DetectorRun where
  score : ℚ
  distMin : ℚ
  distMax : ℚ

/-- The anomaly_scores entry written for one detector: normalized score on
success, 0.0 written by the except branch on failure. -/
def detectorScore (r : Option DetectorRun) : ℚ :=
  match r with
  | none => 0
  | some d => normalizeScore d.score d.distMin d.distMax

/-- The anomaly_scores dict built by the detector loop of detect_fraud, as an
association list in loop order.  Every detector gets an entry, also the
failed ones. -/
def anomalyScores (runs : List (String × Option DetectorRun)) : List (String × ℚ) :=
  runs.map (fun p => (p.1, detectorScore p.2))

/-- The ensemble weighted sum of detect_fraud, lines 227-230:
sum(anomaly_scores.get(model, 0) * weight for model, weight in weights). -/
def overallScore (scores : List (String × ℚ)) : ℚ :=
  (fraudWeights.map (fun w => ((scores.lookup w.1).getD 0) * w.2)).sum

/-- The risk level thresholds of detect_fraud, lines 233-240. -/
def riskLevelOf (s : ℚ) : String :=
  if s ≥ 85/100 then "CRITICAL"
  else if s ≥ 7/10 then "HIGH"
  else if s ≥ 1/2 then "MEDIUM"
  else "LOW"

/-- Python float modulo test amount % 1000 == 0 for a rational amount. -/
def multipleOf1000 (a : ℚ) : Bool :=
  (a / 1000).den == 1

/-- The independent rule checks of _calculate_risk_factors, in source order.
The numeric interpolations of the source f-strings are elided from the
descriptive strings; the trigger conditions are the ones of the source. -/
def riskFactorsOf (txn : Txn) : List String :=
  (if txn.amount > 10000 then ["High transaction amount"] else [])
  ++ (if txn.hour < 6 ∨ txn.hour > 22 then ["Unusual transaction time"] else [])
  ++ (if txn.weekday ≥ 5 then ["Weekend transaction"] else [])
  ++ (if multipleOf1000 txn.amount = true ∧ txn.amount ≥ 1000 then
    ["Round number amount (potential test transaction)"] else [])
  ++ (if txn.daily_transaction_count.getD 0 > 10 then
    ["High transaction velocity"] else [])

/-- The FraudScore result dataclass. -/
structure FraudScore where
  overall_score : ℚ
  risk_level : String
  anomaly_scores : List (String × ℚ)
  risk_factors : List String
  confidence : ℝ
  model_version : String

/-- The arithmetic mean used by np.std (0 on the empty list, matching the
Rat convention x / 0 = 0). -/
def npMean (xs : List ℚ) : ℚ :=
  xs.sum / xs.length

/-- The population variance used by np.std. -/
def npVariance (xs : List ℚ) : ℚ :=
  ((xs.map (fun x => (x - npMean xs) ^ 2)).sum) / xs.length

/-- np.std as the real square root of the population variance. -/
noncomputable def npStd (xs : List ℚ) : ℝ :=
  Real.sqrt ((npVariance xs : ℚ) : ℝ)

/-- The confidence computation of detect_fraud, line 247:
1.0 - (np.std(scores) if scores else 0.5). -/
noncomputable def confidenceOf (scores : List ℚ) : ℝ :=
  1 - (if scores.isEmpty then (1/2 : ℝ) else npStd scores)

/-- The successful path of detect_fraud (feature extraction and scaling did
not raise): the detector loop with its per-detector absorption, the ensemble
sum, the thresholds, the rule based risk factors and the agreement
confidence. -/
noncomputable def detectFraudRun (runs : List (String × Option DetectorRun))
    (txn : Txn) : FraudScore :=
  let scores := anomalyScores runs
  let ov := overallScore scores
  { overall_score := ov
    risk_level := riskLevelOf ov
    anomaly_scores := scores
    risk_factors := riskFactorsOf txn
    confidence := confidenceOf (scores.map (fun p => p.2))
    model_version := "1.0.0" }

/-- FraudDetectionAgent.detect_fraud with its outer try/except: an error
before or around the detector loop yields the hardcoded safe default of
lines 264-271 (score 0.5, MEDIUM, empty scores, confidence 0). -/
noncomputable def detectFraud
    (outcome : Except Unit (List (String × Option DetectorRun)))
    (txn : Txn) : FraudScore :=
  match outcome with
  | .ok runs => detectFraudRun runs txn
  | .error _ =>
    { overall_score := 1/2
      risk_level := "MEDIUM"
      anomaly_scores := []
      risk_factors := ["Error during analysis"]
      confidence := 0
      model_version := "1.0.0" }

/-- The aggregation of process_transaction (src/src/api/main.py lines 222-229
and src/standalone_api.py lines 274-282), as a function of the compliance
status string and the fraud risk level string. -/
def overallStatusOf (complianceStat fraudRiskLevel : String) : String :=
  if complianceStat == "REJECTED" then "REJECTED"
  else if ["HIGH", "CRITICAL"].contains fraudRiskLevel then "FLAGGED_FOR_REVIEW"
  else if complianceStat == "REVIEW_REQUIRED" then "REVIEW_REQUIRED"
  else "APPROVED"

/-- Modelled from the spec: the final aggregation rule exactly as the spec
words it ("if ComplianceAssessment.status == REJECTED then overall = REJECTED;
else if FraudAssessment.risk_level in HIGH, CRITICAL then overall =
FLAGGED_FOR_REVIEW; else if ComplianceAssessment.status == REVIEW_REQUIRED
then overall = REVIEW_REQUIRED; else APPROVED"), for comparison with the code
aggregation overallStatusOf. -/
def specAggregation (c f : String) : String :=
  if c = "REJECTED" then "REJECTED"
  else if f = "HIGH" ∨ f = "CRITICAL" then "FLAGGED_FOR_REVIEW"
  else if c = "REVIEW_REQUIRED" then "REVIEW_REQUIRED"
  else "APPROVED"

/-- Squared Euclidean distance between two embedding vectors, the quantity an
IndexFlatL2 faiss index ranks by. -/
def l2Sq (a b : List ℚ) : ℚ :=
  ((a.zipWith (fun x y => (x - y) ^ 2) b).sum)

/-- Lexicographic comparison on (index, distance) pairs by distance first and
lower index on ties. -/
def lexLe (p q : ℕ × ℚ) : Bool :=
  decide (p.2 < q.2 ∨ (p.2 = q.2 ∧ p.1 ≤ q.1))

/-- The scored index entries sorted by increasing distance with lower index
first on ties. -/
def scoredSorted (index : List (List ℚ)) (q : List ℚ) : List (ℕ × ℚ) :=
  ((index.map (l2Sq q)).enum).mergeSort lexLe

/-- Modelled behavior of faiss.IndexFlatL2.search as called on line 189 of the
compliance agent: exact nearest-neighbor search by squared L2 distance
returning the ids of the k nearest vectors in increasing distance order; when
the index holds fewer than k vectors, faiss pads the missing result slots with
id -1 (its documented behavior for queries with not enough results). -/
def faissSearch (index : List (List ℚ)) (q : List ℚ) (k : ℕ) : List ℤ :=
  let ids := ((scoredSorted index q).take k).map (fun p => (p.1 : ℤ))
  ids ++ List.replicate (k - ids.length) (-1)

/-- Python list subscript with negative index wraparound, as hit by
self.policy_texts[idx] on line 194 when idx is the faiss padding id -1.
Out of range access raises in Python; it is modelled by the empty string and
is unreachable for the index sizes considered here. -/
def pyIndex (texts : List String) (i : ℤ) : String :=
  if 0 ≤ i then texts.getD i.toNat ""
  else texts.getD (texts.length - (-i).toNat) ""

/-- ComplianceAgent._retrieve_relevant_policies, parameterized by the query
embedding (the external sentence encoder output): index search followed by
the list comprehension over the returned ids. -/
def retrievePolicies (texts : List String) (index : List (List ℚ))
    (queryEmbedding : List ℚ) (k : ℕ) : List String :=
  (faissSearch index queryEmbedding k).map (pyIndex texts)

/-- The slice of the ProcessTransactionResponse relevant to the verified
claims. -/
structure ProcessResponse where
  transaction_id : String
  fraud_risk_level : String
  fraud_score : ℚ
  compliance_status : String
  overall_status : String

/-- The endpoint process_transaction of src/src/api/main.py: fraud scoring
(which never raises, its agent absorbs its own errors), then the compliance
and spend steps, each of which CAN raise, then aggregation.  The outer
try/except re-raises every exception as an HTTPException 500, modelled by
Except.error: the caller then receives an error, not a disposition. -/
noncomputable def processTransaction
    (fraudOutcome : Except Unit (List (String × Option DetectorRun)))
    (compliance : Except String ComplianceResult)
    (spend : Except String Unit) (txn : Txn) : Except String ProcessResponse :=
  let fraud := detectFraud fraudOutcome txn
  match compliance with
  | .error e => .error e
  | .ok c =>
    match spend with
    | .error e => .error e
    | .ok _ =>
      .ok { transaction_id := txn.transaction_id
            fraud_risk_level := fraud.risk_level
            fraud_score := fraud.overall_score
            compliance_status := c.status
            overall_status := overallStatusOf c.status fraud.risk_level }

/-- One decision log entry of the supervisor graph. -/
structure AgentLogEntry where
  agent : String
  ok : Bool
  info : String

/-- The try/except of FinancialOrchestrator._create_agent_node (supervisor.py
lines 207-333): a step result is appended to agent_decisions on success, and a
failure is captured and appended as an error entry; the node returns normally
either way. -/
def agentNodeLog (agentName : String) (stepResult : Except String String)
    (log : List AgentLogEntry) : List AgentLogEntry :=
  match stepResult with
  | .ok info => log ++ [{ agent := agentName, ok := true, info := info }]
  | .error e => log ++ [{ agent := agentName, ok := false, info := e }]

/-- FinancialOrchestrator.process_transaction, lines 362-367: the graph
outcome is formatted on success, and any exception escaping the graph is
logged and re-raised unchanged. -/
def orchestratorProcess (graphOutcome : Except String (List AgentLogEntry)) :
    Except String (List AgentLogEntry) :=
  match graphOutcome with
  | .ok st => .ok st
  | .error e => .error e

/-- FraudDetectionAgent._extract_features, parameterized by the per-process
builtin hash of CPython.  CPython salts the hash of str values per process
(PYTHONHASHSEED), so the hash the source applies to the categorical fields is
an input of the embedding, not a fixed function.  np.log1p is Real.log (1+x).
The timestamp is present (hour and weekday fields); the velocity features
default to 1 and to the amount as in lines 146-147. -/
noncomputable def extractFeatures (pyhash : String → ℤ) (t : Txn) : List ℝ :=
  [ (t.amount : ℝ),
    Real.log (1 + (t.amount : ℝ)),
    (t.hour : ℝ),
    (t.weekday : ℝ),
    (if t.weekday ≥ 5 then (1 : ℝ) else 0),
    ((pyhash t.category % 100 : ℤ) : ℝ),
    ((pyhash t.merchant % 100 : ℤ) : ℝ),
    ((pyhash t.user_id % 100 : ℤ) : ℝ),
    ((pyhash t.location % 50 : ℤ) : ℝ),
    ((t.daily_transaction_count.getD 1 : ℚ) : ℝ),
    ((t.daily_transaction_volume.getD t.amount : ℚ) : ℝ) ]

/-- Decidable validity of one detector run: a successful detector scores a
sample of its own fitted distribution, so its score lies between the min and
max of decision_scores_; a raising detector carries no score. -/
def validRunB (r : Option DetectorRun) : Bool :=
  match r with
  | none => true
  | some d => decide (d.distMin ≤ d.score) && decide (d.score ≤ d.distMax)

/-- Clamping to the unit interval, the operation the spec says the ensemble
output goes through. -/
def clamp01 (x : ℚ) : ℚ := max 0 (min x 1)

/-- The detector outcome list in which every detector raised; the loop then
writes 0.0 for each of the five models. -/
def allFailRuns : List (String × Option DetectorRun) :=
  modelNames.map (fun n => (n, none))

/-- A benign concrete transaction (the end-to-end APPROVED scenario of the
spec: 450 dollars at Office Depot). -/
def cleanTxn : Txn :=
  { transaction_id := "TXN-OK", amount := 450, merchant := "Office Depot",
    category := "Office Supplies", user_id := "EMP-001", hour := 10,
    weekday := 2, location := "New York, NY", merchant_description := none,
    daily_transaction_count := none, daily_transaction_volume := none,
    manager_approval := false, competitive_bids := false,
    corporate_booking := false }

/-- A concrete transaction whose merchant is a seeded sanctions entry. -/
def sanctionedTxn : Txn :=
  { transaction_id := "TXN-BAD", amount := 50000,
    merchant := "Suspicious Corp International", category := "Consulting",
    user_id := "EMP-002", hour := 11, weekday := 3, location := "Unknown",
    merchant_description := none, daily_transaction_count := none,
    daily_transaction_volume := none, manager_approval := false,
    competitive_bids := false, corporate_booking := false }

/-- A concrete transaction whose merchant field is present and empty. -/
def emptyMerchantTxn : Txn :=
  { transaction_id := "TXN-EMPTY", amount := 100, merchant := "",
    category := "Misc", user_id := "EMP-003", hour := 12, weekday := 1,
    location := "Unknown", merchant_description := none,
    daily_transaction_count := none, daily_transaction_volume := none,
    manager_approval := false, competitive_bids := false,
    corporate_booking := false }

/-- The first three seeded policy texts, a possible output of the k=3
retrieval that check_compliance performs. -/
def samplePolicies : List String := policyTexts.take 3

theorem lookup_getD_const (l : List (String × ℚ)) (c : ℚ) (h : ∀ p ∈ l, p.2 = c)
    (name : String) : ((l.lookup name).getD c) = c := by
  induction l with
  | nil => rfl
  | cons hd tl ih =>
    obtain ⟨k, v⟩ := hd
    have hv : v = c := h (k, v) (List.mem_cons_self _ _)
    have htl : ∀ p ∈ tl, p.2 = c := fun p hp => h p (List.mem_cons_of_mem _ hp)
    rw [List.lookup_cons]
    cases hb : name == k with
    | true => simp [hv]
    | false => simpa using ih htl

theorem anomalyScores_allFail_vals : ∀ p ∈ anomalyScores allFailRuns, p.2 = (0:ℚ) := by
  decide

theorem overallScore_allFail : overallScore (anomalyScores allFailRuns) = 0 := by
  rw [overallScore]
  simp [fraudWeights, lookup_getD_const (anomalyScores allFailRuns) 0 anomalyScores_allFail_vals]

theorem containsSub_nil_left (hay : List Char) : containsSub [] hay = true := by
  induction hay with
  | nil => rfl
  | cons c rest ih => simp [containsSub, charsStart]

theorem entryMatch_nil_isSome (e : SanctionsEntry) : (entryMatch [] e).isSome = true := by
  rw [entryMatch]
  rw [containsSub_nil_left (strLower e.entity_name)]
  simp

theorem length_filterMap_of_isSome {α β : Type} (f : α → Option β) :
    ∀ l : List α, (∀ x ∈ l, (f x).isSome = true) → (l.filterMap f).length = l.length
  | [], _ => rfl
  | a :: as, h => by
    rcases Option.isSome_iff_exists.mp (h a (List.mem_cons_self a as)) with ⟨b, hb⟩
    simp only [List.filterMap_cons, hb, List.length_cons]
    rw [length_filterMap_of_isSome f as (fun x hx => h x (List.mem_cons_of_mem a hx))]

/-- Claim C3: for every transaction with both a fraud result and a compliance
result, the final overall_status of process_transaction is computed by exactly
the precedence the spec states: compliance REJECTED wins, then fraud HIGH or
CRITICAL gives FLAGGED_FOR_REVIEW, then compliance REVIEW_REQUIRED, else
APPROVED.  The code aggregation overallStatusOf coincides with the spec
aggregation on all status and risk level strings. -/
theorem aggregation_matches_spec (c f : String) : overallStatusOf c f = specAggregation c f := by
  by_cases h1 : c = "REJECTED" <;> by_cases h2 : f = "HIGH" <;> by_cases h3 : f = "CRITICAL" <;>
    by_cases h4 : c = "REVIEW_REQUIRED" <;>
      simp [overallStatusOf, specAggregation, h1, h2, h3, h4]

/-- Claim C4, counterexample: a degenerate detector score distribution (the
single-sample case, minimum = maximum = score, here 3) is normalized to 0 by
the code, not to the neutral 0.5 the claim states. -/
theorem degenerate_normalization_cex :
    normalizeScore 3 3 3 ≠ 1/2 ∧ normalizeScore 3 3 3 = 0 := by
  constructor <;> norm_num [normalizeScore, eps]

/-- Claim C4, amended: on a degenerate (zero range) distribution the min-max
normalization yields 0 — the numerator is zero while the denominator is
padded to the nonzero 1e-10, so no division by zero occurs, but the result is
0, not the neutral 0.5. -/
theorem degenerate_normalization_amended (s : ℚ) :
    normalizeScore s s s = 0 ∧ s - s + eps ≠ 0 := by
  constructor
  · simp [normalizeScore]
  · norm_num [eps]

/-- Claim C2: whenever the compliance screening reports a sanctions hit, the
compliance status is REJECTED and the aggregated overall status of
process_transaction is REJECTED for every fraud risk level. -/
theorem sanctions_precedence (entries : List SanctionsEntry)
    (pepT retrieved : List String) (txn : Txn) (fraudLevel : String)
    (h : (checkCompliance entries pepT retrieved txn).sanctions_hit = true) :
    (checkCompliance entries pepT retrieved txn).status = "REJECTED" ∧
    overallStatusOf (checkCompliance entries pepT retrieved txn).status fraudLevel
      = "REJECTED" := by
  have hhit : (checkSanctions entries txn.merchant).1 = true := by
    simpa [checkCompliance] using h
  have hstat : (checkCompliance entries pepT retrieved txn).status = "REJECTED" := by
    simp [checkCompliance, complianceStatus, hhit]
  exact ⟨hstat, by rw [hstat]; rfl⟩

theorem sanctions_precedence_witness :
    (checkCompliance mockSanctions pepTermsList [] sanctionedTxn).status = "REJECTED" ∧
    overallStatusOf (checkCompliance mockSanctions pepTermsList [] sanctionedTxn).status "LOW"
      = "REJECTED" :=
  sanctions_precedence mockSanctions pepTermsList [] sanctionedTxn "LOW" (by decide)

/-- Claim C10: because sanctions matching tests substring containment in both
directions, an empty merchant name matches every loaded sanctions entry (the
empty string is contained in every canonical name), so the evidence list has
one match per entry, sanctions_hit is true and check_compliance returns
status REJECTED whenever at least one entry is loaded. -/
theorem empty_merchant_rejected (entries : List SanctionsEntry)
    (pepT retrieved : List String) (txn : Txn)
    (hm : txn.merchant = "") (hne : entries ≠ []) :
    ((checkSanctions entries txn.merchant).2).length = entries.length ∧
    (checkCompliance entries pepT retrieved txn).sanctions_hit = true ∧
    (checkCompliance entries pepT retrieved txn).status = "REJECTED" := by
  have hlow : strLower txn.merchant = [] := by rw [hm]; rfl
  have hsome : ∀ e ∈ entries, (entryMatch (strLower txn.merchant) e).isSome = true := by
    intro e _
    rw [hlow]
    exact entryMatch_nil_isSome e
  have hlen : ((checkSanctions entries txn.merchant).2).length = entries.length := by
    simp only [checkSanctions]
    exact length_filterMap_of_isSome _ entries hsome
  have hpos : 0 < ((checkSanctions entries txn.merchant).2).length := by
    rw [hlen]
    exact List.length_pos.mpr hne
  have hhit : (checkSanctions entries txn.merchant).1 = true := by
    simp only [checkSanctions] at hpos ⊢
    simp [List.isEmpty_iff, List.length_pos.mp hpos]
  refine ⟨hlen, ?_, ?_⟩
  · simpa [checkCompliance] using hhit
  · simp [checkCompliance, complianceStatus, hhit]

theorem empty_merchant_rejected_witness :
    ((checkSanctions mockSanctions emptyMerchantTxn.merchant).2).length = mockSanctions.length ∧
    (checkCompliance mockSanctions pepTermsList [] emptyMerchantTxn).sanctions_hit = true ∧
    (checkCompliance mockSanctions pepTermsList [] emptyMerchantTxn).status = "REJECTED" :=
  empty_merchant_rejected mockSanctions pepTermsList [] emptyMerchantTxn rfl (by simp [mockSanctions])

/-- Claim C1, counterexample: when every detector raises, the except branch of
the detector loop writes 0.0 for each of the five models, so the produced
assessment has overall_score 0 and risk_level LOW — not the conservative
MEDIUM the claim states — and the aggregation of process_transaction then
returns APPROVED for a transaction whose compliance screening alone approves
(450 dollars at Office Depot against the seeded lists), contradicting the
claimed "at least REVIEW_REQUIRED, never APPROVED". -/
theorem allDetectorFailure_approves_cex :
    (detectFraudRun allFailRuns cleanTxn).risk_level = "LOW"
    ∧ (checkCompliance mockSanctions pepTermsList samplePolicies cleanTxn).status = "APPROVED"
    ∧ overallStatusOf (checkCompliance mockSanctions pepTermsList samplePolicies cleanTxn).status
        (detectFraudRun allFailRuns cleanTxn).risk_level = "APPROVED" := by
  have hrisk : (detectFraudRun allFailRuns cleanTxn).risk_level = "LOW" := by
    show riskLevelOf (overallScore (anomalyScores allFailRuns)) = "LOW"
    rw [overallScore_allFail]
    norm_num [riskLevelOf]
  have hs : checkSanctions mockSanctions cleanTxn.merchant = (false, []) := by decide
  have hp : checkPEP pepTermsList (cleanTxn.merchant_description.getD cleanTxn.merchant)
      = (false, []) := by decide
  have hv : checkPolicyViolations cleanTxn samplePolicies = [] := by decide
  have hr : complianceRiskScore false false 0 = 0 := by norm_num [complianceRiskScore]
  have hstat : (checkCompliance mockSanctions pepTermsList samplePolicies cleanTxn).status
      = "APPROVED" := by
    simp only [checkCompliance, hs, hp, hv, List.length_nil, hr]
    norm_num [complianceStatus]
  exact ⟨hrisk, hstat, by rw [hstat, hrisk]; rfl⟩

/-- Claim C1, amended: the fraud step cannot go missing — detect_fraud always
returns an assessment.  When every detector raises individually, the produced
assessment has overall_score 0 and risk_level LOW; when the call fails at its
top level (before the loop), the hardcoded fallback has risk_level MEDIUM,
overall_score 0.5 and confidence 0.  In both failure modes the aggregation
treats the result like any other: neither LOW nor MEDIUM triggers
FLAGGED_FOR_REVIEW, so when compliance alone approves, the final disposition
is APPROVED, not REVIEW_REQUIRED. -/
theorem failsafe_behavior_amended (txn : Txn) :
    (detectFraudRun allFailRuns txn).overall_score = 0
    ∧ (detectFraudRun allFailRuns txn).risk_level = "LOW"
    ∧ (detectFraud (Except.error ()) txn).risk_level = "MEDIUM"
    ∧ (detectFraud (Except.error ()) txn).overall_score = 1/2
    ∧ (detectFraud (Except.error ()) txn).confidence = 0
    ∧ overallStatusOf "APPROVED" "LOW" = "APPROVED"
    ∧ overallStatusOf "APPROVED" "MEDIUM" = "APPROVED" := by
  refine ⟨overallScore_allFail, ?_, rfl, rfl, rfl, rfl, rfl⟩
  show riskLevelOf (overallScore (anomalyScores allFailRuns)) = "LOW"
  rw [overallScore_allFail]
  norm_num [riskLevelOf]

/-- Claim C7, counterexample: a failure of the compliance step (here a raising
embedding model call — check_compliance has no try/except of its own) is not
absorbed: the outer try/except of the API process_transaction re-raises it as
an HTTPException 500, so the caller receives an error, not a conservative
disposition, on a well-formed input. -/
theorem step_failure_propagates_cex :
    processTransaction (Except.ok allFailRuns) (Except.error "embedding model failure")
      (Except.ok ()) cleanTxn = Except.error "embedding model failure" := rfl

/-- Claim C7, amended: failures are absorbed at two levels only — inside
detect_fraud (which always returns one of the four risk levels) and inside the
per-agent nodes of the supervisor graph (which record the error in the
decision log and return normally).  A failure of the compliance or spend step
inside the API process_transaction propagates out as an error instead of a
disposition, and the orchestrator top-level call re-raises any error escaping
its graph, so the top-level calls can fail for errors other than malformed
input. -/
theorem failure_propagation_amended :
    (∀ (name : String) (res : Except String String) (log : List AgentLogEntry),
        (agentNodeLog name res log).length = log.length + 1)
    ∧ (∀ (fo : Except Unit (List (String × Option DetectorRun)))
        (s : Except String Unit) (txn : Txn) (e : String),
        processTransaction fo (Except.error e) s txn = Except.error e)
    ∧ (∀ (fo : Except Unit (List (String × Option DetectorRun)))
        (c : ComplianceResult) (txn : Txn) (e : String),
        processTransaction fo (Except.ok c) (Except.error e) txn = Except.error e)
    ∧ (∀ e : String, orchestratorProcess (Except.error e) = Except.error e)
    ∧ (∀ (outcome : Except Unit (List (String × Option DetectorRun))) (txn : Txn),
        (detectFraud outcome txn).risk_level = "LOW"
        ∨ (detectFraud outcome txn).risk_level = "MEDIUM"
        ∨ (detectFraud outcome txn).risk_level = "HIGH"
        ∨ (detectFraud outcome txn).risk_level = "CRITICAL") := by
  refine ⟨?_, ?_, ?_, ?_, ?_⟩
  · intro name res log
    cases res <;> simp [agentNodeLog]
  · intro fo s txn e
    rfl
  · intro fo c txn e
    rfl
  · intro e
    rfl
  · intro outcome txn
    cases outcome with
    | error u => exact Or.inr (Or.inl rfl)
    | ok runs =>
      have hr : (detectFraudRun runs txn).risk_level
          = riskLevelOf (overallScore (anomalyScores runs)) := rfl
      show (detectFraudRun runs txn).risk_level = "LOW"
        ∨ (detectFraudRun runs txn).risk_level = "MEDIUM"
        ∨ (detectFraudRun runs txn).risk_level = "HIGH"
        ∨ (detectFraudRun runs txn).risk_level = "CRITICAL"
      rw [hr]
      unfold riskLevelOf
      split_ifs <;> simp

/-- Claim C5, counterexample: when every detector raises, the scores list
still holds the five 0.0 entries written by the per-detector except branches,
their standard deviation is 0 and the reported confidence is 1, not the 0 the
claim states for the fewer-than-two-successes case. -/
theorem confidence_all_failures_cex :
    (detectFraudRun allFailRuns cleanTxn).confidence = 1
    ∧ (detectFraudRun allFailRuns cleanTxn).confidence ≠ 0 := by
  have h1 : (detectFraudRun allFailRuns cleanTxn).confidence = 1 := by
    show confidenceOf ((anomalyScores allFailRuns).map (fun p => p.2)) = 1
    have hvz : npVariance ((anomalyScores allFailRuns).map (fun p => p.2)) = 0 := by
      norm_num [anomalyScores, allFailRuns, modelNames, detectorScore, npVariance, npMean]
    rw [confidenceOf, npStd, hvz]
    norm_num [anomalyScores, allFailRuns, modelNames]
  exact ⟨h1, by rw [h1]; norm_num⟩

theorem normalizeScore_bounds (s mn mx : ℚ) (h1 : mn ≤ s) (h2 : s ≤ mx) :
    0 ≤ normalizeScore s mn mx ∧ normalizeScore s mn mx ≤ 1 := by
  have he : (0:ℚ) < eps := by norm_num [eps]
  have hd : 0 < mx - mn + eps := by linarith
  rw [normalizeScore]
  constructor
  · apply div_nonneg <;> linarith
  · rw [div_le_one hd]
    linarith

theorem detectorScore_bounds (r : Option DetectorRun) (h : validRunB r = true) :
    0 ≤ detectorScore r ∧ detectorScore r ≤ 1 := by
  cases r with
  | none => norm_num [detectorScore]
  | some d =>
    simp [validRunB] at h
    exact normalizeScore_bounds d.score d.distMin d.distMax h.1 h.2

theorem lookupScore_bounds (runs : List (String × Option DetectorRun))
    (h : ∀ p ∈ runs, validRunB p.2 = true) (name : String) :
    0 ≤ ((anomalyScores runs).lookup name).getD 0
    ∧ ((anomalyScores runs).lookup name).getD 0 ≤ 1 := by
  induction runs with
  | nil => norm_num [anomalyScores]
  | cons hd tl ih =>
    obtain ⟨n, r⟩ := hd
    have hr := detectorScore_bounds r (h (n, r) (List.mem_cons_self _ _))
    have htl := ih (fun p hp => h p (List.mem_cons_of_mem _ hp))
    show 0 ≤ (((n, detectorScore r) :: anomalyScores tl).lookup name).getD 0
      ∧ (((n, detectorScore r) :: anomalyScores tl).lookup name).getD 0 ≤ 1
    rw [List.lookup_cons]
    cases hb : name == n with
    | true => simpa using hr
    | false => simpa using htl

/-- Claim C9: the ensemble overall_score is the weighted sum of the
per-detector normalized scores with the five fixed weights summing to 1, and
whenever every successful detector score lies inside its own fitted
distribution range (which holds by construction, since decision_function is
evaluated on the fitted sample itself), the overall_score lies in [0,1] —
so it coincides with its clamping to [0,1] — and the compliance risk_score
lies in [0,1] for all inputs. -/
theorem score_bounds (runs : List (String × Option DetectorRun))
    (h : ∀ p ∈ runs, validRunB p.2 = true) :
    (0 ≤ overallScore (anomalyScores runs)
      ∧ overallScore (anomalyScores runs) ≤ 1
      ∧ clamp01 (overallScore (anomalyScores runs)) = overallScore (anomalyScores runs))
    ∧ (∀ (sh ph : Bool) (n : ℕ),
        0 ≤ complianceRiskScore sh ph n ∧ complianceRiskScore sh ph n ≤ 1) := by
  have l1 := lookupScore_bounds runs h "isolation_forest"
  have l2 := lookupScore_bounds runs h "lof"
  have l3 := lookupScore_bounds runs h "knn"
  have l4 := lookupScore_bounds runs h "cblof"
  have l5 := lookupScore_bounds runs h "hbos"
  have hov : 0 ≤ overallScore (anomalyScores runs)
      ∧ overallScore (anomalyScores runs) ≤ 1 := by
    rw [overallScore]
    simp only [fraudWeights, List.map_cons, List.map_nil, List.sum_cons, List.sum_nil]
    constructor <;> nlinarith [l1.1, l1.2, l2.1, l2.2, l3.1, l3.2, l4.1, l4.2, l5.1, l5.2]
  refine ⟨⟨hov.1, hov.2, ?_⟩, ?_⟩
  · rw [clamp01, min_eq_left hov.2, max_eq_right hov.1]
  · intro sh ph n
    have ha : 0 ≤ (if sh then (8:ℚ)/10 else 0) := by split <;> norm_num
    have hb : 0 ≤ (if ph then (3:ℚ)/10 else 0) := by split <;> norm_num
    have hc : 0 ≤ (n : ℚ) * (1/10) := by positivity
    constructor
    · rw [complianceRiskScore]
      exact le_min (by linarith) (by norm_num)
    · exact min_le_right _ _

theorem score_bounds_witness :
    (0 ≤ overallScore (anomalyScores allFailRuns)
      ∧ overallScore (anomalyScores allFailRuns) ≤ 1
      ∧ clamp01 (overallScore (anomalyScores allFailRuns))
          = overallScore (anomalyScores allFailRuns))
    ∧ (∀ (sh ph : Bool) (n : ℕ),
        0 ≤ complianceRiskScore sh ph n ∧ complianceRiskScore sh ph n ≤ 1) :=
  score_bounds allFailRuns (by decide)

theorem npMean_bounds (xs : List ℚ) (h : ∀ x ∈ xs, 0 ≤ x ∧ x ≤ 1) :
    0 ≤ npMean xs ∧ npMean xs ≤ 1 := by
  rcases xs with _ | ⟨a, tl⟩
  · norm_num [npMean]
  · have hlen : (0:ℚ) < ((a :: tl).length : ℚ) := by
      exact_mod_cast Nat.succ_pos tl.length
    have hsum0 : 0 ≤ (a :: tl).sum := List.sum_nonneg (fun x hx => (h x hx).1)
    have hsum1 : (a :: tl).sum ≤ ((a :: tl).length : ℚ) := by
      have := List.sum_le_card_nsmul (a :: tl) 1 (fun x hx => (h x hx).2)
      simpa [nsmul_eq_mul] using this
    rw [npMean]
    constructor
    · exact div_nonneg hsum0 (le_of_lt hlen)
    · rw [div_le_one hlen]
      exact hsum1

theorem npVariance_nonneg (xs : List ℚ) : 0 ≤ npVariance xs := by
  rw [npVariance]
  apply div_nonneg
  · apply List.sum_nonneg
    intro y hy
    rcases List.mem_map.mp hy with ⟨x, _, rfl⟩
    positivity
  · positivity

theorem npVariance_le_one (xs : List ℚ) (h : ∀ x ∈ xs, 0 ≤ x ∧ x ≤ 1) :
    npVariance xs ≤ 1 := by
  have hm := npMean_bounds xs h
  rcases eq_or_ne xs [] with rfl | hne
  · norm_num [npVariance, npMean]
  have hlen : (0:ℚ) < (xs.length : ℚ) := by
    exact_mod_cast List.length_pos.mpr hne
  rw [npVariance, div_le_one hlen]
  have hb : ∀ y ∈ xs.map (fun x => (x - npMean xs)^2), y ≤ 1 := by
    intro y hy
    rcases List.mem_map.mp hy with ⟨x, hx, rfl⟩
    have hx1 := h x hx
    nlinarith [hm.1, hm.2, hx1.1, hx1.2]
  have hsum := List.sum_le_card_nsmul _ 1 hb
  simpa [nsmul_eq_mul] using hsum

theorem confidenceOf_bounds (xs : List ℚ) (h : ∀ x ∈ xs, 0 ≤ x ∧ x ≤ 1) :
    0 ≤ confidenceOf xs ∧ confidenceOf xs ≤ 1 := by
  rw [confidenceOf]
  by_cases he : xs.isEmpty = true
  · rw [if_pos he]
    norm_num
  · rw [if_neg he]
    have h0 : (0:ℝ) ≤ npStd xs := Real.sqrt_nonneg _
    have h1 : npStd xs ≤ 1 := by
      rw [npStd]
      apply Real.sqrt_le_one.mpr
      exact_mod_cast npVariance_le_one xs h
    constructor <;> linarith

theorem confidenceOf_all_zero (xs : List ℚ) (hne : xs ≠ []) (h : ∀ x ∈ xs, x = 0) :
    confidenceOf xs = 1 := by
  have hv : npVariance xs = 0 := by
    have hm : npMean xs = 0 := by
      rw [npMean, List.sum_eq_zero h]
      norm_num
    have hz : ∀ y ∈ xs.map (fun x => (x - npMean xs)^2), y = 0 := by
      intro y hy
      rcases List.mem_map.mp hy with ⟨x, hx, rfl⟩
      rw [h x hx, hm]
      norm_num
    rw [npVariance, List.sum_eq_zero hz]
    norm_num
  have he : ¬ (xs.isEmpty = true) := by simpa [List.isEmpty_iff] using hne
  rw [confidenceOf, if_neg he, npStd, hv]
  norm_num

/-- Claim C5, amended: the confidence is 1 minus the population standard
deviation of the per-detector score entries (where a failed detector counts as
the written 0.0, not as absent); under the detector validity invariant it
already lies in [0,1] without any explicit clamping.  Confidence 0 is reported
exactly by the top-level fallback (the whole call raising), not when detectors
fail individually: when every detector raises, the confidence is 1. -/
theorem confidence_semantics_amended (runs : List (String × Option DetectorRun))
    (txn : Txn) (hval : ∀ p ∈ runs, validRunB p.2 = true) (hne : runs ≠ []) :
    (0 ≤ (detectFraudRun runs txn).confidence
      ∧ (detectFraudRun runs txn).confidence ≤ 1)
    ∧ (detectFraud (Except.error ()) txn).confidence = 0
    ∧ ((∀ p ∈ runs, p.2 = none) → (detectFraudRun runs txn).confidence = 1) := by
  have hconf : (detectFraudRun runs txn).confidence
      = confidenceOf ((anomalyScores runs).map (fun p => p.2)) := rfl
  refine ⟨?_, rfl, ?_⟩
  · rw [hconf]
    apply confidenceOf_bounds
    intro x hx
    rcases List.mem_map.mp hx with ⟨p, hp, rfl⟩
    rcases List.mem_map.mp hp with ⟨q, hq, rfl⟩
    exact detectorScore_bounds q.2 (hval q hq)
  · intro hall
    rw [hconf]
    apply confidenceOf_all_zero
    · simpa [anomalyScores] using hne
    · intro x hx
      rcases List.mem_map.mp hx with ⟨p, hp, rfl⟩
      rcases List.mem_map.mp hp with ⟨q, hq, rfl⟩
      show detectorScore q.2 = 0
      rw [hall q hq]
      rfl

theorem confidence_semantics_amended_witness :
    (0 ≤ (detectFraudRun allFailRuns cleanTxn).confidence
      ∧ (detectFraudRun allFailRuns cleanTxn).confidence ≤ 1)
    ∧ (detectFraud (Except.error ()) cleanTxn).confidence = 0
    ∧ ((∀ p ∈ allFailRuns, p.2 = none)
        → (detectFraudRun allFailRuns cleanTxn).confidence = 1) :=
  confidence_semantics_amended allFailRuns cleanTxn (by decide)
    (by simp [allFailRuns, modelNames])

/-- Claim C8, counterexample: the feature vector depends on the value of the
builtin hash on the categorical fields, and CPython salts the hash of str per
process (PYTHONHASHSEED), so two processes whose salted hashes differ on the
category string extract different feature vectors for the same transaction —
the claimed cross-restart stability of the hashed features does not hold. -/
theorem hash_instability_cex :
    extractFeatures (fun _ => 0) cleanTxn ≠ extractFeatures (fun _ => 1) cleanTxn := by
  intro heq
  simp [extractFeatures] at heq

/-- Claim C8, amended: feature extraction is deterministic for a fixed
process: the extracted vector is a function of the transaction record, the
velocity hints and the per-process hash values of the four categorical
fields, so two calls in the same process (same salted hash) yield identical
vectors; but stability across process restarts fails, because the per-process
hash is salted (see the counterexample). -/
theorem extraction_determinism_amended (h1 h2 : String → ℤ) (t : Txn)
    (hc : h1 t.category = h2 t.category) (hm : h1 t.merchant = h2 t.merchant)
    (hu : h1 t.user_id = h2 t.user_id) (hl : h1 t.location = h2 t.location) :
    extractFeatures h1 t = extractFeatures h2 t := by
  simp [extractFeatures, hc, hm, hu, hl]

theorem extraction_determinism_amended_witness :
    extractFeatures (fun _ => 0) cleanTxn = extractFeatures (fun _ => 0) cleanTxn :=
  extraction_determinism_amended (fun _ => 0) (fun _ => 0) cleanTxn rfl rfl rfl rfl

theorem lexLe_trans (a b c : ℕ × ℚ) (hab : lexLe a b = true) (hbc : lexLe b c = true) :
    lexLe a c = true := by
  simp only [lexLe, decide_eq_true_eq] at *
  rcases hab with h1 | ⟨h1, h2⟩ <;> rcases hbc with h3 | ⟨h3, h4⟩
  · exact Or.inl (lt_trans h1 h3)
  · exact Or.inl (h3 ▸ h1)
  · exact Or.inl (h1 ▸ h3)
  · exact Or.inr ⟨h1.trans h3, le_trans h2 h4⟩

theorem lexLe_total (a b : ℕ × ℚ) : (lexLe a b || lexLe b a) = true := by
  simp only [lexLe, Bool.or_eq_true, decide_eq_true_eq]
  rcases lt_trichotomy a.2 b.2 with h | h | h
  · exact Or.inl (Or.inl h)
  · rcases Nat.le_total a.1 b.1 with hn | hn
    · exact Or.inl (Or.inr ⟨h, hn⟩)
    · exact Or.inr (Or.inr ⟨h.symm, hn⟩)
  · exact Or.inr (Or.inl h)

theorem scoredSorted_pairwise (index : List (List ℚ)) (q : List ℚ) :
    (scoredSorted index q).Pairwise
      (fun a b => a.2 < b.2 ∨ (a.2 = b.2 ∧ a.1 ≤ b.1)) := by
  have hp := List.sorted_mergeSort lexLe_trans lexLe_total
    ((index.map (l2Sq q)).enum)
  rw [scoredSorted]
  exact hp.imp (fun h => by simpa [lexLe, decide_eq_true_eq] using h)

theorem scoredSorted_length (index : List (List ℚ)) (q : List ℚ) :
    (scoredSorted index q).length = index.length := by
  rw [scoredSorted, List.length_mergeSort, List.enum_length, List.length_map]

/-- Claim C6, counterexample: on an index holding a single policy text, a
query with k = 2 returns two texts, not min(2, 1) = 1 — the faiss padding id
-1 is mapped by Python negative indexing to the last policy text, which is
duplicated. -/
theorem retrieval_count_cex :
    retrievePolicies ["p0"] [[0]] [0] 2 = ["p0", "p0"]
    ∧ (retrievePolicies ["p0"] [[0]] [0] 2).length ≠ min 2 ([[(0:ℚ)]].length) := by
  constructor
  · simp [retrievePolicies, faissSearch, scoredSorted, l2Sq, pyIndex, List.enum]
  · intro h
    rw [show retrievePolicies ["p0"] [[0]] [0] 2 = ["p0", "p0"] by
      simp [retrievePolicies, faissSearch, scoredSorted, l2Sq, pyIndex, List.enum]] at h
    simp at h

/-- Claim C6, amended: retrieval always returns exactly k policy texts, not
min(k, indexSize); the first min(k, indexSize) result slots are the true
nearest neighbors ordered by increasing distance with stable lower-index
tie-breaking, and when the index holds fewer than k vectors the remaining
slots carry the faiss padding id -1, which Python negative indexing maps to
the LAST policy text (so the tail of the result duplicates it). -/
theorem retrieval_semantics_amended :
    (∀ (texts : List String) (index : List (List ℚ)) (q : List ℚ) (k : ℕ),
        (retrievePolicies texts index q k).length = k)
    ∧ (∀ (index : List (List ℚ)) (q : List ℚ) (k : ℕ),
        ((scoredSorted index q).take k).Pairwise
          (fun a b => a.2 < b.2 ∨ (a.2 = b.2 ∧ a.1 ≤ b.1)))
    ∧ (∀ (index : List (List ℚ)) (q : List ℚ) (k : ℕ),
        (faissSearch index q k).drop (min k index.length)
          = List.replicate (k - min k index.length) (-1))
    ∧ (∀ texts : List String, pyIndex texts (-1) = (texts.getLast?).getD "") := by
  have hidlen : ∀ (index : List (List ℚ)) (q : List ℚ) (k : ℕ),
      (((scoredSorted index q).take k).map (fun p => (p.1 : ℤ))).length
        = min k index.length := by
    intro index q k
    rw [List.length_map, List.length_take, scoredSorted_length]
  refine ⟨?_, ?_, ?_, ?_⟩
  · intro texts index q k
    rw [retrievePolicies, List.length_map, faissSearch]
    rw [List.length_append, List.length_replicate, hidlen]
    have := Nat.min_le_left k index.length
    omega
  · intro index q k
    exact (scoredSorted_pairwise index q).sublist (List.take_sublist k _)
  · intro index q k
    rw [faissSearch]
    rw [← hidlen index q k, List.drop_left, hidlen index q k]
  · intro texts
    rw [pyIndex]
    norm_num
    rw [List.getLast?_eq_getElem?]
